import Mathlib

/-!
Shallow embedding of the runtime-configuration module of the kopf operator
framework (file src/kopf/config.py): the logging setup routine `configure`,
the static configuration holders `WorkersConfig` / `WatchersConfig`, and the
runtime mutator `set_synchronous_tasks_threadpool_limit`.

Python flags of type Optional[bool] are modelled as `Option Bool`, with
Python truthiness given by `truthy`. Logger state (handlers, levels,
propagation) is modelled explicitly; float-valued settings are modelled as
exact rationals.
-/

namespace KopfConfig

/-- Log levels of the Python logging module that the code uses. -/
inductive LogLevel where
  | DEBUG
  | INFO
  | WARNING
  | ERROR
  | CRITICAL
  deriving DecidableEq

/-- A logging handler: the stream handler installed by `configure` (carrying
its formatter format string), a null handler, or some pre-existing handler
identified by a tag. -/
inductive Handler where
  | streamHandler (formatterFormat : String)
  | nullHandler
  | otherHandler (tag : Nat)
  deriving DecidableEq

/-- A Python logger: level, handler list, propagation flag. -/
structure Logger where
  level : LogLevel
  handlers : List Handler
  propagate : Bool
  deriving DecidableEq

/-- The kubernetes client default Configuration object, as far as
`configure` touches it. -/
structure KubeClientConfig where
  logger_format : String
  logger_file : Option String
  debug : Option Bool
  deriving DecidableEq

/-- The process-wide state read and written by `configure`: the root logger,
the three noisy dependency loggers, whether the optional kubernetes client
library is importable, its default configuration object, and the asyncio
event-loop debug flag. -/
structure LoggingState where
  root : Logger
  urllib3 : Logger
  asyncioLogger : Logger
  kubernetesLogger : Logger
  kubernetesAvailable : Bool
  kubernetesDefaultConfig : Option KubeClientConfig
  loopDebug : Bool
  deriving DecidableEq

/-- The module-level format string of src/kopf/config.py. -/
def format : String :=
  "[%(asctime)s] %(name)-20.20s [%(levelname)-8.8s] %(message)s"

/-- Python truthiness of an Optional[bool]: None and False are falsy. -/
def truthy (b : Option Bool) : Bool :=
  b.getD false

/-- Suppression applied by `configure` to each of the loggers named
urllib3, asyncio and kubernetes: set propagate to bool(debug) and, outside
debug mode, replace the handler list with a single NullHandler. -/
def suppressNoisy (debug : Option Bool) (lg : Logger) : Logger :=
  let lg := { lg with propagate := truthy debug }
  if truthy debug then lg else { lg with handlers := [Handler.nullHandler] }

/-- Embedding of `kopf.config.configure(debug, verbose, quiet)`:
derives the effective level, appends one stream handler to the root logger
and sets its level, reinstalls the kubernetes client default configuration
when the library is importable, strips extra urllib3 handlers and
suppresses the three noisy loggers outside debug mode, and sets the event
loop debug flag. -/
def configure (debug verbose quiet : Option Bool) (s : LoggingState) :
    LoggingState :=
  let log_level :=
    if truthy debug || truthy verbose then LogLevel.DEBUG
    else if truthy quiet then LogLevel.WARNING
    else LogLevel.INFO
  let root :=
    { s.root with
        handlers := s.root.handlers ++ [Handler.streamHandler format],
        level := log_level }
  let kubernetesDefaultConfig :=
    if s.kubernetesAvailable then
      some { logger_format := format, logger_file := none, debug := debug }
    else s.kubernetesDefaultConfig
  let urllib3 :=
    if truthy debug then s.urllib3
    else { s.urllib3 with handlers := s.urllib3.handlers.take 1 }
  { root := root,
    urllib3 := suppressNoisy debug urllib3,
    asyncioLogger := suppressNoisy debug s.asyncioLogger,
    kubernetesLogger := suppressNoisy debug s.kubernetesLogger,
    kubernetesAvailable := s.kubernetesAvailable,
    kubernetesDefaultConfig := kubernetesDefaultConfig,
    loopDebug := truthy debug }

/-- The execution sub-settings of a per-run OperatorSettings object, as far
as the mutator touches them. -/
structure ExecutionSettings where
  max_workers : Option Int
  deriving DecidableEq

/-- A per-run OperatorSettings object, bound in a context variable while an
operator run is active. -/
structure OperatorSettings where
  execution : ExecutionSettings
  deriving DecidableEq

/-- State touched by `WorkersConfig.set_synchronous_tasks_threadpool_limit`:
the static class field, and the context variable possibly holding the
per-run settings (none models the LookupError case). -/
structure WorkersState where
  synchronous_tasks_threadpool_limit : Option Int
  settings_var : Option OperatorSettings
  deriving DecidableEq

/-- Embedding of `WorkersConfig.set_synchronous_tasks_threadpool_limit`.
Returns the resulting state paired with the raised error message, if any:
on a limit below 1 a ValueError is raised before any mutation; otherwise
the static field is set and, when per-run settings are bound, their
execution.max_workers field is set in place, a failed lookup being
swallowed. -/
def set_synchronous_tasks_threadpool_limit (new_limit : Int)
    (s : WorkersState) : WorkersState × Option String :=
  if new_limit < 1 then
    (s, some "Can`t set threadpool limit lower than 1")
  else
    let s := { s with synchronous_tasks_threadpool_limit := some new_limit }
    match s.settings_var with
    | none => (s, none)
    | some st =>
        let execution := { st.execution with max_workers := some new_limit }
        let st := { st with execution := execution }
        ({ s with settings_var := some st }, none)

/-- A direct class-attribute assignment to the static field, which in the
source is a plain Python assignment with no validation. -/
def assign_threadpool_limit_directly (value : Option Int)
    (s : WorkersState) : WorkersState :=
  { s with synchronous_tasks_threadpool_limit := value }

/-- The class-level default values of WorkersConfig. Floats are modelled as
exact rationals. -/
structure WorkersConfigDefaults where
  queue_workers_limit : Option Int
  synchronous_tasks_threadpool_limit : Option Int
  worker_idle_timeout : ℚ
  worker_batch_window : ℚ
  worker_exit_timeout : ℚ
  deriving DecidableEq

/-- The initial values of the WorkersConfig class fields. -/
def workersConfigInitial : WorkersConfigDefaults :=
  { queue_workers_limit := none,
    synchronous_tasks_threadpool_limit := none,
    worker_idle_timeout := 5.0,
    worker_batch_window := 0.1,
    worker_exit_timeout := 2.0 }

/-- The class-level default values of WatchersConfig. -/
structure WatchersConfigDefaults where
  default_stream_timeout : Option ℚ
  watcher_retry_delay : ℚ
  session_timeout : Option ℚ
  deriving DecidableEq

/-- The initial values of the WatchersConfig class fields. -/
def watchersConfigInitial : WatchersConfigDefaults :=
  { default_stream_timeout := none,
    watcher_retry_delay := 0.1,
    session_timeout := none }

/-- A sample logging state with pre-existing handlers, used to instantiate
universally quantified theorems at a concrete input. -/
def sampleLoggingState : LoggingState :=
  { root := { level := LogLevel.WARNING, handlers := [], propagate := true },
    urllib3 :=
      { level := LogLevel.WARNING,
        handlers := [Handler.nullHandler, Handler.otherHandler 7],
        propagate := true },
    asyncioLogger :=
      { level := LogLevel.WARNING,
        handlers := [Handler.otherHandler 3],
        propagate := true },
    kubernetesLogger :=
      { level := LogLevel.WARNING, handlers := [], propagate := true },
    kubernetesAvailable := true,
    kubernetesDefaultConfig := none,
    loopDebug := false }

/-- A sample logging state identical to the previous one except that the
kubernetes client library is not importable. -/
def sampleUnavailableState : LoggingState :=
  { sampleLoggingState with kubernetesAvailable := false }

/-- A sample workers state with per-run settings bound in the context
variable. -/
def sampleWorkersState : WorkersState :=
  { synchronous_tasks_threadpool_limit := none,
    settings_var := some { execution := { max_workers := none } } }

/-- A sample workers state with no per-run settings bound. -/
def unboundWorkersState : WorkersState :=
  { synchronous_tasks_threadpool_limit := some 3,
    settings_var := none }

/-- Replacement of the execution max workers field of a bound settings
object, leaving everything else in place. -/
def withMaxWorkers (n : Int) (st : OperatorSettings) : OperatorSettings :=
  { st with execution := { st.execution with max_workers := some n } }

/-- Claim C1: for every new limit at least 1, the mutator raises no error,
sets the static class field synchronous_tasks_threadpool_limit to the new
limit, and, when a per-run settings object is bound in the calling context,
also sets that bound object execution.max_workers field to the new limit in
place. -/
theorem C1_set_limit_success (new_limit : Int) (s : WorkersState)
    (h : 1 ≤ new_limit) :
    (set_synchronous_tasks_threadpool_limit new_limit s).2 = none ∧
    (set_synchronous_tasks_threadpool_limit new_limit
        s).1.synchronous_tasks_threadpool_limit = some new_limit ∧
    ∀ st, s.settings_var = some st →
      (set_synchronous_tasks_threadpool_limit new_limit s).1.settings_var =
        some (withMaxWorkers new_limit st) := by
  have hn : ¬ new_limit < 1 := not_lt.mpr h
  cases hsv : s.settings_var with
  | none =>
      simp [set_synchronous_tasks_threadpool_limit, hn, hsv]
  | some st =>
      simp [set_synchronous_tasks_threadpool_limit, hn, hsv, withMaxWorkers]

/-- Witness for claim C1 at the concrete limit 2 on a state with bound
per-run settings. -/
theorem C1_set_limit_success_witness :
    (1 : Int) ≤ 2 ∧
    ((set_synchronous_tasks_threadpool_limit 2 sampleWorkersState).2 = none ∧
     (set_synchronous_tasks_threadpool_limit 2
        sampleWorkersState).1.synchronous_tasks_threadpool_limit = some 2 ∧
     ∀ st, sampleWorkersState.settings_var = some st →
       (set_synchronous_tasks_threadpool_limit 2
          sampleWorkersState).1.settings_var =
         some (withMaxWorkers 2 st)) :=
  ⟨by norm_num, C1_set_limit_success 2 sampleWorkersState (by norm_num)⟩

/-- Claim C2: the mutator raises an invalid-argument error exactly when the
new limit is below 1, and on that failure the state is unchanged. -/
theorem C2_invalid_limit_iff (new_limit : Int) (s : WorkersState) :
    ((set_synchronous_tasks_threadpool_limit new_limit s).2.isSome ↔
      new_limit < 1) ∧
    (new_limit < 1 →
      (set_synchronous_tasks_threadpool_limit new_limit s).1 = s) := by
  by_cases hn : new_limit < 1
  · simp [set_synchronous_tasks_threadpool_limit, hn]
  · cases hsv : s.settings_var <;>
      simp [set_synchronous_tasks_threadpool_limit, hn, hsv]

/-- Witness for claim C2 at the concrete invalid limit 0: the call fails
and the state is unchanged. -/
theorem C2_invalid_limit_iff_witness :
    (set_synchronous_tasks_threadpool_limit 0 sampleWorkersState).2.isSome ∧
    (set_synchronous_tasks_threadpool_limit 0 sampleWorkersState).1 =
      sampleWorkersState :=
  ⟨(C2_invalid_limit_iff 0 sampleWorkersState).1.mpr (by norm_num),
   (C2_invalid_limit_iff 0 sampleWorkersState).2 (by norm_num)⟩

/-- Claim C3: for every new limit at least 1, when no per-run settings
object is bound, the mutator does not raise: the lookup failure is
swallowed, only the static default field is updated, and the call returns
normally. -/
theorem C3_no_bound_settings (new_limit : Int) (s : WorkersState)
    (h : 1 ≤ new_limit) (hs : s.settings_var = none) :
    set_synchronous_tasks_threadpool_limit new_limit s =
      ({ s with synchronous_tasks_threadpool_limit := some new_limit },
       none) := by
  have hn : ¬ new_limit < 1 := not_lt.mpr h
  simp [set_synchronous_tasks_threadpool_limit, hn, hs]

/-- Witness for claim C3 at the concrete limit 4 on a state with no bound
per-run settings. -/
theorem C3_no_bound_settings_witness :
    (1 : Int) ≤ 4 ∧
    unboundWorkersState.settings_var = none ∧
    set_synchronous_tasks_threadpool_limit 4 unboundWorkersState =
      ({ unboundWorkersState with
          synchronous_tasks_threadpool_limit := some 4 }, none) :=
  ⟨by norm_num, rfl,
   C3_no_bound_settings 4 unboundWorkersState (by norm_num) rfl⟩

/-- Claim C4: for all flag combinations, configure sets the root logger
level to DEBUG if debug or verbose is truthy, otherwise to WARNING if
quiet is truthy, otherwise to INFO. -/
theorem C4_root_level (debug verbose quiet : Option Bool)
    (s : LoggingState) :
    (configure debug verbose quiet s).root.level =
      (if truthy debug || truthy verbose then LogLevel.DEBUG
       else if truthy quiet then LogLevel.WARNING
       else LogLevel.INFO) := by
  simp [configure]

/-- Claim C5: after configure with debug falsy, each of the urllib3,
asyncio and kubernetes loggers has exactly one handler, a null handler,
and propagate false; after configure with debug truthy, all three have
propagate true and their handler lists are unchanged. -/
theorem C5_noisy_loggers (debug verbose quiet : Option Bool)
    (s : LoggingState) :
    (truthy debug = false →
      (configure debug verbose quiet s).urllib3.handlers =
        [Handler.nullHandler] ∧
      (configure debug verbose quiet s).urllib3.propagate = false ∧
      (configure debug verbose quiet s).asyncioLogger.handlers =
        [Handler.nullHandler] ∧
      (configure debug verbose quiet s).asyncioLogger.propagate = false ∧
      (configure debug verbose quiet s).kubernetesLogger.handlers =
        [Handler.nullHandler] ∧
      (configure debug verbose quiet s).kubernetesLogger.propagate = false) ∧
    (truthy debug = true →
      (configure debug verbose quiet s).urllib3.propagate = true ∧
      (configure debug verbose quiet s).asyncioLogger.propagate = true ∧
      (configure debug verbose quiet s).kubernetesLogger.propagate = true ∧
      (configure debug verbose quiet s).urllib3.handlers =
        s.urllib3.handlers ∧
      (configure debug verbose quiet s).asyncioLogger.handlers =
        s.asyncioLogger.handlers ∧
      (configure debug verbose quiet s).kubernetesLogger.handlers =
        s.kubernetesLogger.handlers) := by
  constructor <;> intro hd <;> simp [configure, suppressNoisy, hd]

/-- Witness for claim C5: the falsy branch at debug unset and the truthy
branch at debug true, both on a concrete state with pre-existing
handlers. -/
theorem C5_noisy_loggers_witness :
    ((configure none none none sampleLoggingState).urllib3.handlers =
        [Handler.nullHandler] ∧
     (configure none none none sampleLoggingState).urllib3.propagate =
        false ∧
     (configure none none none sampleLoggingState).asyncioLogger.handlers =
        [Handler.nullHandler] ∧
     (configure none none none sampleLoggingState).asyncioLogger.propagate =
        false ∧
     (configure none none none sampleLoggingState).kubernetesLogger.handlers =
        [Handler.nullHandler] ∧
     (configure none none none sampleLoggingState).kubernetesLogger.propagate =
        false) ∧
    ((configure (some true) none none sampleLoggingState).urllib3.propagate =
        true ∧
     (configure (some true) none none
        sampleLoggingState).asyncioLogger.propagate = true ∧
     (configure (some true) none none
        sampleLoggingState).kubernetesLogger.propagate = true ∧
     (configure (some true) none none sampleLoggingState).urllib3.handlers =
        sampleLoggingState.urllib3.handlers ∧
     (configure (some true) none none
        sampleLoggingState).asyncioLogger.handlers =
        sampleLoggingState.asyncioLogger.handlers ∧
     (configure (some true) none none
        sampleLoggingState).kubernetesLogger.handlers =
        sampleLoggingState.kubernetesLogger.handlers) :=
  ⟨(C5_noisy_loggers none none none sampleLoggingState).1 rfl,
   (C5_noisy_loggers (some true) none none sampleLoggingState).2 rfl⟩

/-- Claim C6: every value stored into the static field or into the live
run execution.max_workers through the mutator is at least 1, while direct
field assignment performs no validation and stores any value. -/
theorem C6_limit_invariant (new_limit : Int) (s : WorkersState)
    (h : (set_synchronous_tasks_threadpool_limit new_limit s).2 = none) :
    1 ≤ new_limit ∧
    (set_synchronous_tasks_threadpool_limit new_limit
        s).1.synchronous_tasks_threadpool_limit = some new_limit ∧
    (∀ st, (set_synchronous_tasks_threadpool_limit new_limit
        s).1.settings_var = some st →
      st.execution.max_workers = some new_limit) ∧
    ∀ v : Int, (assign_threadpool_limit_directly (some v)
        s).synchronous_tasks_threadpool_limit = some v := by
  by_cases hn : new_limit < 1
  · exfalso
    simp [set_synchronous_tasks_threadpool_limit, hn] at h
  · refine ⟨not_lt.mp hn, ?_, ?_, ?_⟩
    · cases hsv : s.settings_var <;>
        simp [set_synchronous_tasks_threadpool_limit, hn, hsv]
    · cases hsv : s.settings_var <;>
        intro st hst <;>
        simp [set_synchronous_tasks_threadpool_limit, hn, hsv] at hst
      · cases hst
        rfl
    · intro v
      simp [assign_threadpool_limit_directly]

/-- Witness for claim C6 at the concrete successful call with limit 2 on a
state with bound per-run settings. -/
theorem C6_limit_invariant_witness :
    (set_synchronous_tasks_threadpool_limit 2 sampleWorkersState).2 =
      none ∧
    ((1 : Int) ≤ 2 ∧
     (set_synchronous_tasks_threadpool_limit 2
        sampleWorkersState).1.synchronous_tasks_threadpool_limit = some 2 ∧
     (∀ st, (set_synchronous_tasks_threadpool_limit 2
        sampleWorkersState).1.settings_var = some st →
       st.execution.max_workers = some 2) ∧
     ∀ v : Int, (assign_threadpool_limit_directly (some v)
        sampleWorkersState).synchronous_tasks_threadpool_limit = some v) :=
  ⟨rfl, C6_limit_invariant 2 sampleWorkersState rfl⟩

/-- Claim C7: configure tolerates absence of the kubernetes client
library: when it is not importable the client configuration step is
skipped and all other steps are unaffected; when it is importable a new
default client configuration is installed with the same format string, no
log file, and the debug flag mirrored from the debug argument. -/
theorem C7_optional_kubernetes (debug verbose quiet : Option Bool)
    (s : LoggingState) :
    (s.kubernetesAvailable = false →
      (configure debug verbose quiet s).kubernetesDefaultConfig =
        s.kubernetesDefaultConfig) ∧
    (s.kubernetesAvailable = true →
      (configure debug verbose quiet s).kubernetesDefaultConfig =
        some { logger_format := format, logger_file := none,
               debug := debug }) ∧
    ∀ b : Bool,
      (configure debug verbose quiet
          { s with kubernetesAvailable := b }).root =
        (configure debug verbose quiet s).root ∧
      (configure debug verbose quiet
          { s with kubernetesAvailable := b }).urllib3 =
        (configure debug verbose quiet s).urllib3 ∧
      (configure debug verbose quiet
          { s with kubernetesAvailable := b }).asyncioLogger =
        (configure debug verbose quiet s).asyncioLogger ∧
      (configure debug verbose quiet
          { s with kubernetesAvailable := b }).kubernetesLogger =
        (configure debug verbose quiet s).kubernetesLogger ∧
      (configure debug verbose quiet
          { s with kubernetesAvailable := b }).loopDebug =
        (configure debug verbose quiet s).loopDebug := by
  refine ⟨fun hA => ?_, fun hA => ?_, fun b => ?_⟩
  · simp [configure, hA]
  · simp [configure, hA]
  · refine ⟨rfl, rfl, rfl, rfl, rfl⟩

/-- Witness for claim C7: the skipped step on a state without the library
and the installed configuration on a state with it. -/
theorem C7_optional_kubernetes_witness :
    (configure none none none
        sampleUnavailableState).kubernetesDefaultConfig =
      sampleUnavailableState.kubernetesDefaultConfig ∧
    (configure none none none sampleLoggingState).kubernetesDefaultConfig =
      some { logger_format := format, logger_file := none, debug := none } :=
  ⟨(C7_optional_kubernetes none none none sampleUnavailableState).1 rfl,
   (C7_optional_kubernetes none none none sampleLoggingState).2.1 rfl⟩

/-- Claim C8: configure is not idempotent: every call appends one new
stream handler to the root logger, so two calls leave the root logger
with two such handlers appended. -/
theorem C8_not_idempotent (debug verbose quiet : Option Bool)
    (s : LoggingState) :
    (configure debug verbose quiet s).root.handlers =
      s.root.handlers ++ [Handler.streamHandler format] ∧
    (configure debug verbose quiet
        (configure debug verbose quiet s)).root.handlers =
      s.root.handlers ++
        [Handler.streamHandler format, Handler.streamHandler format] := by
  constructor
  · rfl
  · simp [configure]

/-- Claim C9: the initial values of the configuration holders are
watcher_retry_delay 0.1, worker_idle_timeout 5.0, worker_batch_window 0.1,
worker_exit_timeout 2.0, and queue_workers_limit,
synchronous_tasks_threadpool_limit, default_stream_timeout and
session_timeout all absent. -/
theorem C9_default_values :
    watchersConfigInitial.watcher_retry_delay = 0.1 ∧
    workersConfigInitial.worker_idle_timeout = 5.0 ∧
    workersConfigInitial.worker_batch_window = 0.1 ∧
    workersConfigInitial.worker_exit_timeout = 2.0 ∧
    workersConfigInitial.queue_workers_limit = none ∧
    workersConfigInitial.synchronous_tasks_threadpool_limit = none ∧
    watchersConfigInitial.default_stream_timeout = none ∧
    watchersConfigInitial.session_timeout = none :=
  ⟨rfl, rfl, rfl, rfl, rfl, rfl, rfl, rfl⟩

/-- Claim C10: configure with all three flags unset produces the same root
logger, the same three noisy-dependency loggers and the same event loop
debug flag as configure with all three flags false. -/
theorem C10_unset_flags_like_false (s : LoggingState) :
    (configure none none none s).root =
      (configure (some false) (some false) (some false) s).root ∧
    (configure none none none s).urllib3 =
      (configure (some false) (some false) (some false) s).urllib3 ∧
    (configure none none none s).asyncioLogger =
      (configure (some false) (some false) (some false) s).asyncioLogger ∧
    (configure none none none s).kubernetesLogger =
      (configure (some false) (some false) (some false) s).kubernetesLogger ∧
    (configure none none none s).loopDebug =
      (configure (some false) (some false) (some false) s).loopDebug :=
  ⟨rfl, rfl, rfl, rfl, rfl⟩

end KopfConfig
